import Mathlib

/-!
# Verification of the TeamUp MCP server's session/authentication core

Shallow embedding of the session/authentication state machine and the
per-request credential-injection pipeline of the TeamUp MCP server
(`src/index.ts`, the local stdio transport, and `src/remote-server.ts`,
the remote HTTP/SSE transport), together with proofs about the embedded
operations.
-/

namespace TeamUp

/-- JSON-like values, as they appear in tool arguments and request bodies. -/
inductive JVal where
  | undefined
  | null
  | str (s : String)
  | num (n : Int)
  | boolean (b : Bool)
  | arr (xs : List JVal)
  | obj (fields : List (String × JVal))

/-- JavaScript truthiness of an optional string (`undefined`, missing and
`""` are falsy). -/
def truthy : Option String → Bool
  | none => false
  | some s => !s.isEmpty

/-- JavaScript truthiness of a `JVal`. -/
def jvalTruthy : JVal → Bool
  | .undefined => false
  | .null => false
  | .str s => !s.isEmpty
  | .num n => n != 0
  | .boolean b => b
  | .arr _ => true
  | .obj _ => true

/-- String coercion used when a `JVal` is interpolated into a header
template (approximates JavaScript `String(v)` on non-string values). -/
def jvalRender : JVal → String
  | .undefined => "undefined"
  | .null => "null"
  | .str s => s
  | .num n => toString n
  | .boolean b => if b then "true" else "false"
  | .arr _ => "[array]"
  | .obj _ => "[object Object]"

/-- Field access on a JavaScript argument object: a missing key reads as
`undefined`. -/
def getField (args : List (String × JVal)) (k : String) : JVal :=
  match args.find? (fun kv => kv.1 = k) with
  | some kv => kv.2
  | none => .undefined

/-- `TOKEN` (static token) versus `OAUTH` authentication mode
(`TEAMUP_AUTH_MODE`). -/
inductive AuthMode where
  | token
  | oauth
deriving DecidableEq, Repr

/-- The per-session authentication state used by both transports. -/
inductive AuthState where
  | uninitialized
  | waitingForAuth
  | authenticated
deriving DecidableEq, Repr

/-- `TeamUp-Request-Mode` header value. -/
inductive RequestMode where
  | customer
  | provider
deriving DecidableEq, Repr

/-- The `OAuthTokens` record of both servers: access token plus optional
refresh token and expiry. `expiresAt` keeps the raw `expires_in` seconds. -/
structure OAuthTokens where
  accessToken : String
  refreshToken : Option String
  expiresAt : Option Nat
deriving DecidableEq, Repr

/-- Body of a `200` response from the token endpoint. -/
structure TokenData where
  access_token : String
  refresh_token : Option String
  expires_in : Option Nat
deriving DecidableEq, Repr

/-- Outcome of one POST to the token endpoint (code exchange or refresh):
an environment input to the embedded handlers. -/
inductive ExchangeOutcome where
  | ok (d : TokenData)
  | fail
deriving DecidableEq, Repr

/-- An upstream HTTP request as assembled by the axios instances: method,
path, query params after filtering, body, and the three auth/tenant
headers the interceptors and instance defaults inject. -/
structure Request where
  method : String
  path : String
  params : List (String × JVal)
  body : JVal
  authorization : Option String
  providerId : Option String
  requestMode : RequestMode

/-- `buildQueryParams` (src/utils.ts): drops entries whose value is
`undefined`, `null` or the empty string. -/
def jsKeep : JVal → Bool
  | .undefined => false
  | .null => false
  | .str s => !s.isEmpty
  | _ => true

/-- `buildQueryParams` from src/utils.ts. -/
def buildQueryParams (args : List (String × JVal)) : List (String × JVal) :=
  args.filter (fun kv => jsKeep kv.2)

/-! ## Local stdio server (`src/index.ts`, class `TeamUpOAuthMCPServer`) -/

/-- Configuration of the local server (`TeamUpConfig` in src/index.ts). -/
structure LocalConfig where
  authMode : AuthMode
  accessToken : Option String
  providerId : Option String
  requestMode : RequestMode
  clientId : String
  clientSecret : String
  redirectUri : String
  scope : String
deriving DecidableEq, Repr

/-- The mutable fields of `TeamUpOAuthMCPServer` the auth core touches:
`authState`, `tokens` and the one-shot callback listener. -/
structure LocalState where
  authState : AuthState
  tokens : Option OAuthTokens
  callbackServer : Bool
deriving DecidableEq, Repr

/-- Constructor plus `checkStoredTokens` (src/index.ts:176-188): a truthy
`TEAMUP_STORED_ACCESS_TOKEN` pre-authenticates the single session. -/
def initialLocalState (storedAccess storedRefresh : Option String) : LocalState :=
  if truthy storedAccess then
    { authState := .authenticated
      tokens := some { accessToken := storedAccess.getD ""
                       refreshToken := storedRefresh
                       expiresAt := none }
      callbackServer := false }
  else
    { authState := .uninitialized, tokens := none, callbackServer := false }

/-- The local request interceptor (src/index.ts:92-101): `TOKEN` mode with
a configured token sends `Token <config token>`; otherwise a truthy OAuth
access token sends `Token <access token>`; otherwise no header is added. -/
def localAuthHeader (cfg : LocalConfig) (st : LocalState) : Option String :=
  if cfg.authMode = .token ∧ truthy cfg.accessToken then
    some ("Token " ++ cfg.accessToken.getD "")
  else
    match st.tokens with
    | some t => if !t.accessToken.isEmpty then some ("Token " ++ t.accessToken) else none
    | none => none

/-- Assemble an upstream request of the local axios instance: default
headers from the constructor (src/index.ts:81-90) plus the interceptor's
`Authorization`. -/
def mkLocalRequest (cfg : LocalConfig) (st : LocalState) (method path : String)
    (params : List (String × JVal)) (body : JVal) : Request :=
  { method := method
    path := path
    params := params
    body := body
    authorization := localAuthHeader cfg st
    providerId := if truthy cfg.providerId then cfg.providerId else none
    requestMode := cfg.requestMode }

/-- `bulkDeleteCustomers` (src/index.ts:1099-1105): destructures
`customer_ids` from the arguments but posts the constant body
`{customers: {}}`. Returns (method, path, body). -/
def bulkDeleteCustomers (args : List (String × JVal)) : String × String × JVal :=
  let _customer_ids := getField args "customer_ids"
  ("POST", "/customers/bulk_delete", JVal.obj [("customers", JVal.obj [])])

/-- The upstream request built for the entity tools modelled here
(`listEvents` src/index.ts:1013-1018, `bulkDeleteCustomers`
src/index.ts:1099-1105); other catalog entries are analogous boilerplate
outside the claims. -/
def localEntityRequest (cfg : LocalConfig) (st : LocalState) (name : String)
    (args : List (String × JVal)) : Option Request :=
  if name = "list_events" then
    some (mkLocalRequest cfg st "GET" "/events" (buildQueryParams args) .undefined)
  else if name = "bulk_delete_customers" then
    let (m, p, b) := bulkDeleteCustomers args
    some (mkLocalRequest cfg st m p [] b)
  else
    none

/-- The authorization URL constructed by `initializeTeamUp`
(src/index.ts:491-501), kept structured. -/
structure AuthUrl where
  client_id : String
  redirect_uri : String
  response_type : String
  scope : String
  state : String
deriving DecidableEq, Repr

/-- Result of the `initialize_teamup` tool on the local server. -/
inductive InitResult where
  | alreadyConnected
  | alreadyWaiting
  | authUrl (u : AuthUrl)
deriving DecidableEq, Repr

/-- `initializeTeamUp` (src/index.ts:468-526) together with
`startCallbackServer`'s idempotence guard (src/index.ts:528-531).
`freshState` is the randomly generated `state` correlator. The returned
`Nat` counts callback listeners started by this call. -/
def initializeTeamUp (cfg : LocalConfig) (st : LocalState) (freshState : String) :
    LocalState × InitResult × Nat :=
  if st.authState = .authenticated then
    (st, .alreadyConnected, 0)
  else if st.authState = .waitingForAuth then
    (st, .alreadyWaiting, 0)
  else
    let starts := if st.callbackServer then 0 else 1
    ({ st with authState := .waitingForAuth, callbackServer := true },
     .authUrl { client_id := cfg.clientId
                redirect_uri := cfg.redirectUri
                response_type := "code"
                scope := cfg.scope
                state := freshState },
     starts)

/-- Query parameters delivered to a callback endpoint. -/
structure CallbackQuery where
  code : Option String
  error : Option String
  state : Option String
deriving DecidableEq, Repr

/-- HTTP response rendered by a callback handler. -/
inductive CallbackResponse where
  | invalidSession400
  | errorPage (e : String)
  | successPage
  | failurePage
  | noResponse
deriving DecidableEq, Repr

/-- The local callback listener (src/index.ts:534-592) with
`exchangeCodeForTokens` (src/index.ts:601-632) inlined. The `state` query
parameter is never read by this handler. The returned `Nat` counts POSTs
to the token endpoint. -/
def localCallback (st : LocalState) (q : CallbackQuery) (ex : ExchangeOutcome) :
    LocalState × CallbackResponse × Nat :=
  if !st.callbackServer then
    (st, .noResponse, 0)
  else if truthy q.error then
    (st, .errorPage (q.error.getD ""), 0)
  else if truthy q.code then
    match ex with
    | .ok d =>
        ({ st with
             tokens := some { accessToken := d.access_token
                              refreshToken := d.refresh_token
                              expiresAt := d.expires_in }
             authState := .authenticated
             callbackServer := false },
         .successPage, 1)
    | .fail =>
        ({ st with authState := .uninitialized }, .failurePage, 1)
  else
    (st, .noResponse, 0)

/-- Truthiness of `this.tokens?.refreshToken` (src/index.ts:141). -/
def hasRefreshToken (st : LocalState) : Bool :=
  match st.tokens with
  | some t => truthy t.refreshToken
  | none => false

/-- axios's default `validateStatus`: 2xx is a success. -/
def isOk (status : Nat) : Bool := 200 ≤ status && status < 300

/-- Environment of one logical upstream call: the status of the first
attempt, the outcome of a refresh POST (consulted only if one happens)
and the status of the retried attempt. -/
structure UpstreamEnv where
  firstStatus : Nat
  refresh : ExchangeOutcome
  secondStatus : Nat
deriving DecidableEq, Repr

/-- Final outcome of one logical upstream call as seen by the caller. -/
inductive CallFinal where
  | success (status : Nat)
  | failure (status : Nat)
deriving DecidableEq, Repr

/-- The local response interceptor (src/index.ts:119-156) with
`refreshAccessToken` (src/index.ts:190-222) inlined, run to completion for
one logical request. A 401 on an un-retried request with a truthy refresh
token triggers one refresh; on refresh success the request is re-issued
once with `_retry` set, so a second 401 is rejected as-is; on refresh
failure `authState` drops to `uninitialized`, the tokens are cleared and
the original error is rejected. Returns
(state, outcome, refresh calls, upstream attempts). -/
def requestWithRetry (st : LocalState) (env : UpstreamEnv) :
    LocalState × CallFinal × Nat × Nat :=
  if isOk env.firstStatus then
    (st, .success env.firstStatus, 0, 1)
  else if env.firstStatus = 401 && hasRefreshToken st then
    match env.refresh with
    | .ok d =>
        let st1 := { st with
          tokens := some { accessToken := d.access_token
                           refreshToken := d.refresh_token
                           expiresAt := d.expires_in } }
        if isOk env.secondStatus then (st1, .success env.secondStatus, 1, 2)
        else (st1, .failure env.secondStatus, 1, 2)
    | .fail =>
        ({ st with authState := .uninitialized, tokens := none },
         .failure env.firstStatus, 1, 1)
  else
    (st, .failure env.firstStatus, 0, 1)

/-- Outcome of the local `CallToolRequestSchema` handler. -/
inductive LocalCallOutcome where
  | tokenModeNotice
  | init (r : InitResult)
  | directive
  | dispatched
  | unknownTool
deriving DecidableEq, Repr

/-- The local tool router (src/index.ts:248-434): `initialize_teamup`
first (with the TOKEN-mode notice), then the TOKEN-mode bypass of the
authentication check, then the OAUTH-mode directive for unauthenticated
sessions, then the dispatch switch. The returned list holds the upstream
requests issued. -/
def localCallTool (cfg : LocalConfig) (st : LocalState) (name : String)
    (args : List (String × JVal)) (freshState : String) :
    LocalState × LocalCallOutcome × List Request :=
  if name = "initialize_teamup" then
    if cfg.authMode = .token then
      (st, .tokenModeNotice, [])
    else
      let (st1, r, _) := initializeTeamUp cfg st freshState
      (st1, .init r, [])
  else if cfg.authMode = .token then
    match localEntityRequest cfg st name args with
    | some req => (st, .dispatched, [req])
    | none => (st, .unknownTool, [])
  else if st.authState ≠ .authenticated then
    (st, .directive, [])
  else
    match localEntityRequest cfg st name args with
    | some req => (st, .dispatched, [req])
    | none => (st, .unknownTool, [])

/-! ## Remote HTTP/SSE server (`src/remote-server.ts`) -/

/-- Configuration of the remote server (`TeamUpConfig` in
src/remote-server.ts:60-72). -/
structure RemoteConfig where
  authMode : AuthMode
  accessToken : Option String
  providerId : Option String
  requestMode : RequestMode
  clientId : String
  clientSecret : String
  redirectUri : String
  scope : String
deriving DecidableEq, Repr

/-- `UserSession` (src/remote-server.ts:38-45); the timestamps, used only
by the eviction sweep, are not needed by any claim and are omitted. -/
structure UserSession where
  id : String
  tokens : Option OAuthTokens
  userProvidedToken : Option String
  authState : AuthState
deriving DecidableEq, Repr

/-- The in-memory session map (src/remote-server.ts:48), as an
association list keyed by session id. -/
abbrev Sessions := List (String × UserSession)

/-- `sessions.get`. -/
def findSession (ss : Sessions) (sid : String) : Option UserSession :=
  match ss.find? (fun p => p.1 = sid) with
  | some p => some p.2
  | none => none

/-- `sessions.set`: replace the entry for the key, or append it. -/
def setSession : Sessions → String → UserSession → Sessions
  | [], sid, s => [(sid, s)]
  | (k, v) :: t, sid, s =>
      if k = sid then (sid, s) :: t else (k, v) :: setSession t sid s

/-- The session middleware (src/remote-server.ts:105-125): a missing or
unknown `x-session-id` header mints a fresh `uninitialized` session under
the freshly generated id. Returns the updated map and the resolved id. -/
def resolveSession (ss : Sessions) (hdr : Option String) (freshId : String) :
    Sessions × String :=
  if truthy hdr ∧ (findSession ss (hdr.getD "")).isSome then
    (ss, hdr.getD "")
  else
    (setSession ss freshId
       { id := freshId, tokens := none, userProvidedToken := none,
         authState := .uninitialized },
     freshId)

/-- Shape of a `ListTools` response. -/
inductive ToolsList where
  | setTokenOnly
  | initializeOnly
  | full
deriving DecidableEq, Repr

/-- The remote `ListToolsRequestSchema` handler
(src/remote-server.ts:385-433). -/
def listToolsHandler (cfg : RemoteConfig) (s : UserSession) :
    UserSession × ToolsList :=
  if cfg.authMode = .token ∧ truthy cfg.accessToken then
    ({ s with authState := .authenticated }, .full)
  else if cfg.authMode = .token ∧ ¬ truthy cfg.accessToken
          ∧ ¬ truthy s.userProvidedToken then
    (s, .setTokenOnly)
  else if cfg.authMode = .token ∧ truthy s.userProvidedToken then
    ({ s with authState := .authenticated }, .full)
  else if cfg.authMode = .oauth ∧ s.authState ≠ .authenticated then
    (s, .initializeOnly)
  else
    (s, .full)

/-- `session.userProvidedToken || config.accessToken`
(src/remote-server.ts:357). -/
def tokenModeToken (cfg : RemoteConfig) (s : UserSession) : Option String :=
  if truthy s.userProvidedToken then s.userProvidedToken else cfg.accessToken

/-- The remote request interceptor (src/remote-server.ts:353-369): in
`TOKEN` mode `session.userProvidedToken || config.accessToken` is sent as
`Bearer <token>` when truthy; in `OAUTH` mode a truthy session access
token is sent as `Bearer <token>`; otherwise no header is added. -/
def remoteAuthHeader (cfg : RemoteConfig) (s : UserSession) : Option String :=
  if cfg.authMode = .token then
    if truthy (tokenModeToken cfg s) then
      some ("Bearer " ++ (tokenModeToken cfg s).getD "")
    else none
  else
    match s.tokens with
    | some t => if !t.accessToken.isEmpty then some ("Bearer " ++ t.accessToken)
                else none
    | none => none

/-- Assemble an upstream request of the per-session axios instance
(src/remote-server.ts:341-369). -/
def mkRemoteRequest (cfg : RemoteConfig) (s : UserSession) (method path : String)
    (params : List (String × JVal)) (body : JVal) : Request :=
  { method := method
    path := path
    params := params
    body := body
    authorization := remoteAuthHeader cfg s
    providerId := if truthy cfg.providerId then cfg.providerId else none
    requestMode := cfg.requestMode }

/-- Upstream request of the remote entity tools modelled here
(`list_events` src/remote-server.ts:529-533, `list_customers`
src/remote-server.ts:554-558); the remaining switch cases are analogous. -/
def remoteEntityRequest (cfg : RemoteConfig) (s : UserSession) (name : String)
    (args : List (String × JVal)) : Option Request :=
  if name = "list_events" then
    some (mkRemoteRequest cfg s "GET" "/events" (buildQueryParams args) .undefined)
  else if name = "list_customers" then
    some (mkRemoteRequest cfg s "GET" "/customers" (buildQueryParams args) .undefined)
  else
    none

/-- Outcome of the remote `CallToolRequestSchema` handler. -/
inductive RemoteCallOutcome where
  | tokenRequiredError
  | tokenSet
  | useSetTokenNotice
  | alreadyAuthenticated
  | authUrlIssued (u : AuthUrl)
  | directive
  | dispatched
  | unknownTool
deriving DecidableEq, Repr

/-- The remote tool router (src/remote-server.ts:435-604):
`set_teamup_token` first (works in every mode, stores a truthy token and
authenticates), then `initialize_teamup` (OAUTH only; uses the session id
itself as the OAuth `state`), then the directive for unauthenticated
sessions, then the dispatch switch. -/
def remoteCallTool (cfg : RemoteConfig) (s : UserSession) (name : String)
    (args : List (String × JVal)) :
    UserSession × RemoteCallOutcome × List Request :=
  if name = "set_teamup_token" then
    if !jvalTruthy (getField args "token") then
      (s, .tokenRequiredError, [])
    else
      ({ s with userProvidedToken := some (jvalRender (getField args "token")),
                authState := .authenticated },
       .tokenSet, [])
  else if name = "initialize_teamup" then
    if cfg.authMode ≠ .oauth then
      (s, .useSetTokenNotice, [])
    else if s.authState = .authenticated then
      (s, .alreadyAuthenticated, [])
    else
      ({ s with authState := .waitingForAuth },
       .authUrlIssued { client_id := cfg.clientId
                        redirect_uri := cfg.redirectUri
                        response_type := "code"
                        scope := cfg.scope
                        state := s.id },
       [])
  else if s.authState ≠ .authenticated then
    (s, .directive, [])
  else
    match remoteEntityRequest cfg s name args with
    | some req => (s, .dispatched, [req])
    | none => (s, .unknownTool, [])

/-- The remote `/callback` handler (src/remote-server.ts:258-334). The
`state` query parameter is used directly as a session id; a falsy state or
one naming no live session yields a 400. The returned `Nat` counts POSTs
to the token endpoint. -/
def handleCallback (ss : Sessions) (q : CallbackQuery) (ex : ExchangeOutcome) :
    Sessions × CallbackResponse × Nat :=
  if !truthy q.state then
    (ss, .invalidSession400, 0)
  else
    let sid := q.state.getD ""
    match findSession ss sid with
    | none => (ss, .invalidSession400, 0)
    | some s =>
      if truthy q.error then
        (setSession ss sid { s with authState := .uninitialized },
         .errorPage (q.error.getD ""), 0)
      else if truthy q.code then
        match ex with
        | .ok d =>
            (setSession ss sid
               { s with tokens := some { accessToken := d.access_token
                                         refreshToken := d.refresh_token
                                         expiresAt := d.expires_in }
                        authState := .authenticated },
             .successPage, 1)
        | .fail =>
            (setSession ss sid { s with authState := .uninitialized },
             .failurePage, 1)
      else
        (ss, .noResponse, 0)

/-! ## Trace semantics -/

/-- One inbound interaction with the remote server. Every HTTP request
(the callback included) first passes the session middleware; `hdr` is the
`x-session-id` header and `freshId` the id the middleware would mint. -/
inductive REvent where
  | listTools (hdr : Option String) (freshId : String)
  | callTool (hdr : Option String) (freshId : String) (name : String)
      (args : List (String × JVal))
  | callback (hdr : Option String) (freshId : String) (q : CallbackQuery)
      (ex : ExchangeOutcome)

/-- One step of the remote server. Returns the session map, the number of
token-endpoint POSTs and the upstream requests issued by the step. -/
def stepRemote (cfg : RemoteConfig) (ss : Sessions) :
    REvent → Sessions × Nat × List Request
  | .listTools hdr fresh =>
      let (ss1, sid) := resolveSession ss hdr fresh
      match findSession ss1 sid with
      | some s =>
          let (s', _) := listToolsHandler cfg s
          (setSession ss1 sid s', 0, [])
      | none => (ss1, 0, [])
  | .callTool hdr fresh name args =>
      let (ss1, sid) := resolveSession ss hdr fresh
      match findSession ss1 sid with
      | some s =>
          let (s', _, reqs) := remoteCallTool cfg s name args
          (setSession ss1 sid s', 0, reqs)
      | none => (ss1, 0, [])
  | .callback hdr fresh q ex =>
      let (ss1, _) := resolveSession ss hdr fresh
      let (ss2, _, n) := handleCallback ss1 q ex
      (ss2, n, [])

/-- Run the remote server over a list of events, accumulating the
token-endpoint call count and the upstream requests. -/
def runRemote (cfg : RemoteConfig) :
    Sessions → List REvent → Sessions × Nat × List Request
  | ss, [] => (ss, 0, [])
  | ss, e :: es =>
      let (ss1, n, reqs) := stepRemote cfg ss e
      let (ss2, m, reqs') := runRemote cfg ss1 es
      (ss2, n + m, reqs ++ reqs')

/-- A token-endpoint success delivers a non-empty access token. -/
def exOK : ExchangeOutcome → Bool
  | .ok d => !d.access_token.isEmpty
  | .fail => true

/-- A `set_teamup_token` argument object passes its `token` as a string,
as the tool's declared schema requires, when it passes a truthy one. -/
def tokenArgOK (args : List (String × JVal)) : Bool :=
  match getField args "token" with
  | .str _ => true
  | v => !jvalTruthy v

/-- Well-formed environment inputs of a remote event: token-endpoint
successes deliver a non-empty access token, and a `set_teamup_token` call
passes its token as a string (as its declared schema requires) if at all. -/
def wfREvent : REvent → Bool
  | .callback _ _ _ ex => exOK ex
  | .callTool _ _ name args =>
      if name = "set_teamup_token" then tokenArgOK args else true
  | _ => true

/-- One inbound interaction with the local server. -/
inductive LEvent where
  | callTool (name : String) (args : List (String × JVal)) (freshState : String)
  | callbackReq (q : CallbackQuery) (ex : ExchangeOutcome)
  | apiCall (env : UpstreamEnv)

/-- One step of the local server: the tool router, the callback listener,
or one logical authenticated upstream call through the retry
interceptor. -/
def stepLocal (cfg : LocalConfig) (st : LocalState) : LEvent → LocalState
  | .callTool name args fresh => (localCallTool cfg st name args fresh).1
  | .callbackReq q ex => (localCallback st q ex).1
  | .apiCall env => (requestWithRetry st env).1

/-- Run the local server over a list of events. -/
def runLocal (cfg : LocalConfig) : LocalState → List LEvent → LocalState
  | st, [] => st
  | st, e :: es => runLocal cfg (stepLocal cfg st e) es

/-- Well-formed environment inputs of a local event: token-endpoint
successes (code exchange and refresh) deliver a non-empty access token. -/
def wfLEvent : LEvent → Bool
  | .callbackReq _ ex => exOK ex
  | .apiCall env => exOK env.refresh
  | _ => true

/-- Repeated `initialize_teamup` calls on the local server: results and the
total number of callback listeners started. -/
def runInitialize (cfg : LocalConfig) :
    LocalState → List String → LocalState × List InitResult × Nat
  | st, [] => (st, [], 0)
  | st, f :: fs =>
      let (st1, r, n) := initializeTeamUp cfg st f
      let (st2, rs, m) := runInitialize cfg st1 fs
      (st2, r :: rs, n + m)

/-! ## Invariant statements -/

/-- A remote session's credential is usable: it holds an OAuth token pair
with a non-empty access token, or a truthy per-session override token, or
the server itself runs in static-token mode with a configured server-wide
token. -/
def sessionCredOK (cfg : RemoteConfig) (s : UserSession) : Prop :=
  (∃ t, s.tokens = some t ∧ t.accessToken ≠ "") ∨
  truthy s.userProvidedToken = true ∨
  (cfg.authMode = .token ∧ truthy cfg.accessToken = true)

/-- Every authenticated session in the map has a usable credential. -/
def remoteInv (cfg : RemoteConfig) (ss : Sessions) : Prop :=
  ∀ p ∈ ss, p.2.authState = .authenticated → sessionCredOK cfg p.2

/-- The local single session, when authenticated, holds an OAuth token
pair with a non-empty access token. -/
def localCredOK (st : LocalState) : Prop :=
  st.authState = .authenticated → ∃ t, st.tokens = some t ∧ t.accessToken ≠ ""

/-! ## Concrete fixtures used by witnesses and counterexamples -/

/-- Remote static-token deployment with server-wide token `T`. -/
def cfgTok : RemoteConfig :=
  { authMode := .token, accessToken := some "T", providerId := none,
    requestMode := .customer, clientId := "", clientSecret := "",
    redirectUri := "", scope := "" }

/-- Remote OAuth deployment (with a static token configured as well, to
show it is ignored in OAuth mode). -/
def cfgOauth : RemoteConfig :=
  { authMode := .oauth, accessToken := some "S", providerId := none,
    requestMode := .customer, clientId := "cid", clientSecret := "sec",
    redirectUri := "https://x/callback", scope := "read_write" }

/-- Local static-token deployment of the spec's concrete scenario:
token `T`, provider id `54664`, request mode `provider`. -/
def lcfgTok : LocalConfig :=
  { authMode := .token, accessToken := some "T", providerId := some "54664",
    requestMode := .provider, clientId := "", clientSecret := "",
    redirectUri := "", scope := "" }

/-- Local OAuth deployment. -/
def lcfgOauth : LocalConfig :=
  { authMode := .oauth, accessToken := none, providerId := none,
    requestMode := .customer, clientId := "cid", clientSecret := "sec",
    redirectUri := "http://localhost:8080/callback", scope := "read_write" }

/-- A remote trace in which a session is minted by a plain tools/list
request — `initialize_teamup` is never called, so no authorization URL
and no `state` is ever issued — and a callback then presents that
session's id as its `state` together with an authorization code. -/
def c1Trace : List REvent :=
  [.listTools none "s1",
   .callback none "b1" { code := some "abc", error := none, state := some "s1" }
     (.ok { access_token := "A", refresh_token := some "R", expires_in := none })]

/-- A remote trace on the static-token deployment: one tools/list request
from a fresh session. -/
def c4Trace : List REvent :=
  [.listTools none "s1"]

/-- A remote trace on the OAuth deployment: the session authenticates via
`set_teamup_token` (storing an override token), then calls `list_events`. -/
def c6Trace : List REvent :=
  [.callTool none "s1" "set_teamup_token" [("token", .str "U")],
   .callTool (some "s1") "b2" "list_events" []]

/-- An authenticated local session holding refresh token `R`. -/
def stRefresh : LocalState :=
  { authState := .authenticated,
    tokens := some { accessToken := "A", refreshToken := some "R", expiresAt := none },
    callbackServer := false }

/-- Upstream environment: first attempt 401, refresh succeeds with a new
token pair, retried attempt 401 again. -/
def envTwo401 : UpstreamEnv :=
  { firstStatus := 401,
    refresh := .ok { access_token := "A2", refresh_token := some "R2", expires_in := none },
    secondStatus := 401 }

/-- A local session waiting for its OAuth callback, listener running. -/
def stWaiting : LocalState :=
  { authState := .waitingForAuth, tokens := none, callbackServer := true }

/-! ## Helper lemmas on the session map -/

theorem mem_setSession : ∀ {ss : Sessions} {k : String} {s : UserSession}
    {p : String × UserSession}, p ∈ setSession ss k s → p = (k, s) ∨ p ∈ ss
  | [], k, s, p, h => by simpa [setSession] using h
  | (k', v) :: t, k, s, p, h => by
      by_cases hk : k' = k
      · simp only [setSession, if_pos hk, List.mem_cons] at h
        rcases h with h | h
        · exact Or.inl h
        · exact Or.inr (List.mem_cons_of_mem _ h)
      · simp only [setSession, if_neg hk, List.mem_cons] at h
        rcases h with h | h
        · exact Or.inr (by simp [h])
        · rcases mem_setSession h with h' | h'
          · exact Or.inl h'
          · exact Or.inr (List.mem_cons_of_mem _ h')

theorem findSession_mem {ss : Sessions} {sid : String} {s : UserSession}
    (h : findSession ss sid = some s) : (sid, s) ∈ ss := by
  unfold findSession at h
  cases hf : ss.find? (fun p => p.1 = sid) with
  | none => rw [hf] at h; exact absurd h (by simp)
  | some p =>
      rw [hf] at h
      have hmem : p ∈ ss := List.mem_of_find?_eq_some hf
      have hp : p.1 = sid := by simpa using List.find?_some hf
      cases p with
      | mk a b =>
          simp only [Option.some.injEq] at h
          simp only at hp
          rw [← hp, ← h]
          exact hmem

/-! ## Preservation of the credential invariant, remote transport -/

theorem setSession_inv {cfg : RemoteConfig} {ss : Sessions} {sid : String}
    {s : UserSession} (h : remoteInv cfg ss)
    (hs : s.authState = .authenticated → sessionCredOK cfg s) :
    remoteInv cfg (setSession ss sid s) := by
  intro p hp hauth
  rcases mem_setSession hp with rfl | hp'
  · exact hs hauth
  · exact h p hp' hauth

theorem findSession_inv {cfg : RemoteConfig} {ss : Sessions} {sid : String}
    {s : UserSession} (h : remoteInv cfg ss) (hf : findSession ss sid = some s) :
    s.authState = .authenticated → sessionCredOK cfg s :=
  h (sid, s) (findSession_mem hf)

theorem resolveSession_inv {cfg : RemoteConfig} {ss : Sessions}
    (hdr : Option String) (fresh : String) (h : remoteInv cfg ss) :
    remoteInv cfg (resolveSession ss hdr fresh).1 := by
  unfold resolveSession
  split
  · exact h
  · exact setSession_inv h (by intro hauth; exact absurd hauth (by simp))

theorem listToolsHandler_credOK (cfg : RemoteConfig) (s : UserSession)
    (h : s.authState = .authenticated → sessionCredOK cfg s) :
    (listToolsHandler cfg s).1.authState = .authenticated →
      sessionCredOK cfg (listToolsHandler cfg s).1 := by
  unfold listToolsHandler
  split
  · rename_i hc
    exact fun _ => Or.inr (Or.inr hc)
  · split
    · exact h
    · split
      · rename_i hc
        exact fun _ => Or.inr (Or.inl hc.2)
      · split
        · exact h
        · exact h

theorem remoteCallTool_credOK (cfg : RemoteConfig) (s : UserSession)
    (name : String) (args : List (String × JVal))
    (hwf : name = "set_teamup_token" → tokenArgOK args = true)
    (h : s.authState = .authenticated → sessionCredOK cfg s) :
    (remoteCallTool cfg s name args).1.authState = .authenticated →
      sessionCredOK cfg (remoteCallTool cfg s name args).1 := by
  unfold remoteCallTool
  split
  · rename_i hname
    split
    · exact h
    · rename_i htr
      intro _
      refine Or.inr (Or.inl ?_)
      have hok := hwf hname
      unfold tokenArgOK at hok
      cases hv : getField args "token" with
      | str s0 =>
          rw [hv] at htr
          simp only [jvalTruthy, Bool.not_eq_true', Bool.not_eq_false] at htr
          simp [hv, truthy, jvalRender, htr]
      | undefined => rw [hv] at hok htr; simp [jvalTruthy] at htr
      | null => rw [hv] at hok htr; simp [jvalTruthy] at htr
      | num n => rw [hv] at hok htr; simp [jvalTruthy] at hok htr; simp [hok] at htr
      | boolean b => rw [hv] at hok htr; simp [jvalTruthy] at hok htr; simp [hok] at htr
      | arr xs => rw [hv] at hok; simp [jvalTruthy] at hok
      | obj fs => rw [hv] at hok; simp [jvalTruthy] at hok
  · split
    · split
      · exact h
      · split
        · exact h
        · intro hauth; exact absurd hauth (by simp)
    · split
      · exact h
      · split
        · exact h
        · exact h

theorem handleCallback_inv {cfg : RemoteConfig} {ss : Sessions}
    (q : CallbackQuery) (ex : ExchangeOutcome) (hex : exOK ex = true)
    (h : remoteInv cfg ss) : remoteInv cfg (handleCallback ss q ex).1 := by
  unfold handleCallback
  split
  · exact h
  · cases hf : findSession ss (q.state.getD "") with
    | none => simpa [hf] using h
    | some s =>
        simp only [hf]
        split
        · exact setSession_inv h (by intro hauth; exact absurd hauth (by simp))
        · split
          · cases ex with
            | ok d =>
                refine setSession_inv h (fun _ => Or.inl ⟨_, rfl, ?_⟩)
                show d.access_token ≠ ""
                simp only [exOK, Bool.not_eq_true'] at hex
                intro hcon
                rw [hcon] at hex
                exact absurd hex (by decide)
            | fail =>
                exact setSession_inv h (by intro hauth; exact absurd hauth (by simp))
          · exact h

theorem stepRemote_inv {cfg : RemoteConfig} {ss : Sessions} (e : REvent)
    (hwf : wfREvent e = true) (h : remoteInv cfg ss) :
    remoteInv cfg (stepRemote cfg ss e).1 := by
  cases e with
  | listTools hdr fresh =>
      rcases hres : resolveSession ss hdr fresh with ⟨ss1, sid⟩
      have h1 : remoteInv cfg ss1 := by
        have := resolveSession_inv hdr fresh h
        rwa [hres] at this
      simp only [stepRemote, hres]
      cases hf : findSession ss1 sid with
      | none => simpa [hf] using h1
      | some s =>
          simp only [hf]
          exact setSession_inv h1 (listToolsHandler_credOK cfg s (findSession_inv h1 hf))
  | callTool hdr fresh name args =>
      rcases hres : resolveSession ss hdr fresh with ⟨ss1, sid⟩
      have h1 : remoteInv cfg ss1 := by
        have := resolveSession_inv hdr fresh h
        rwa [hres] at this
      have hta : name = "set_teamup_token" → tokenArgOK args = true := by
        intro hn
        simpa [wfREvent, hn] using hwf
      simp only [stepRemote, hres]
      cases hf : findSession ss1 sid with
      | none => simpa [hf] using h1
      | some s =>
          simp only [hf]
          exact setSession_inv h1
            (remoteCallTool_credOK cfg s name args hta (findSession_inv h1 hf))
  | callback hdr fresh q ex =>
      rcases hres : resolveSession ss hdr fresh with ⟨ss1, sid⟩
      have h1 : remoteInv cfg ss1 := by
        have := resolveSession_inv hdr fresh h
        rwa [hres] at this
      have hex : exOK ex = true := by simpa [wfREvent] using hwf
      simp only [stepRemote, hres]
      rcases hcb : handleCallback ss1 q ex with ⟨ss2, resp, n⟩
      have := handleCallback_inv q ex hex h1
      rw [hcb] at this
      simpa using this

theorem runRemote_cons (cfg : RemoteConfig) (ss : Sessions) (e : REvent)
    (es : List REvent) :
    runRemote cfg ss (e :: es)
      = ((runRemote cfg (stepRemote cfg ss e).1 es).1,
         (stepRemote cfg ss e).2.1 + (runRemote cfg (stepRemote cfg ss e).1 es).2.1,
         (stepRemote cfg ss e).2.2 ++ (runRemote cfg (stepRemote cfg ss e).1 es).2.2) := by
  rcases hstep : stepRemote cfg ss e with ⟨ss1, n, reqs⟩
  rcases hrun : runRemote cfg ss1 es with ⟨ss2, m, reqs2⟩
  simp [runRemote, hstep, hrun]

theorem runRemote_inv {cfg : RemoteConfig} :
    ∀ (ss : Sessions) (events : List REvent),
      events.all wfREvent = true → remoteInv cfg ss →
      remoteInv cfg (runRemote cfg ss events).1
  | ss, [], _, h => by simpa [runRemote] using h
  | ss, e :: es, hwf, h => by
      simp only [List.all_cons, Bool.and_eq_true] at hwf
      have h1 := stepRemote_inv e hwf.1 h
      have h2 := runRemote_inv (stepRemote cfg ss e).1 es hwf.2 h1
      rw [runRemote_cons]
      exact h2

/-! ## Preservation of the credential invariant, local transport -/

theorem initializeTeamUp_credOK (cfg : LocalConfig) (st : LocalState)
    (fresh : String) (h : localCredOK st) :
    localCredOK (initializeTeamUp cfg st fresh).1 := by
  unfold initializeTeamUp
  split
  · exact h
  · split
    · exact h
    · intro hauth
      simp at hauth

theorem stepLocal_credOK (cfg : LocalConfig) {st : LocalState} (e : LEvent)
    (hwf : wfLEvent e = true) (h : localCredOK st) :
    localCredOK (stepLocal cfg st e) := by
  cases e with
  | callTool name args fresh =>
      simp only [stepLocal]
      unfold localCallTool
      split
      · split
        · exact h
        · rcases hinit : initializeTeamUp cfg st fresh with ⟨st1, r, k⟩
          have hpres := initializeTeamUp_credOK cfg st fresh h
          rw [hinit] at hpres
          simp only [hinit]
          exact hpres
      · split
        · split
          · exact h
          · exact h
        · split
          · exact h
          · split
            · exact h
            · exact h
  | callbackReq q ex =>
      have hex : exOK ex = true := by simpa [wfLEvent] using hwf
      simp only [stepLocal]
      unfold localCallback
      split
      · exact h
      · split
        · exact h
        · split
          · cases ex with
            | ok d =>
                intro _
                refine ⟨_, rfl, ?_⟩
                show d.access_token ≠ ""
                simp only [exOK, Bool.not_eq_true'] at hex
                intro hcon
                rw [hcon] at hex
                exact absurd hex (by decide)
            | fail => intro hauth; simp at hauth
          · exact h
  | apiCall env =>
      have hex : exOK env.refresh = true := by simpa [wfLEvent] using hwf
      simp only [stepLocal]
      unfold requestWithRetry
      split
      · exact h
      · split
        · cases hr : env.refresh with
          | ok d =>
              rw [hr] at hex
              simp only [exOK, Bool.not_eq_true'] at hex
              have hne : d.access_token ≠ "" := by
                intro hcon
                rw [hcon] at hex
                exact absurd hex (by decide)
              by_cases hs : isOk env.secondStatus = true
              · simp only [hs, if_true]
                exact fun _ => ⟨_, rfl, hne⟩
              · simp only [hs, if_false]
                exact fun _ => ⟨_, rfl, hne⟩
          | fail => intro hauth; simp at hauth
        · exact h

theorem runLocal_credOK (cfg : LocalConfig) :
    ∀ (st : LocalState) (events : List LEvent),
      events.all wfLEvent = true → localCredOK st →
      localCredOK (runLocal cfg st events)
  | _, [], _, h => by simpa [runLocal] using h
  | st, e :: es, hwf, h => by
      simp only [List.all_cons, Bool.and_eq_true] at hwf
      have h1 := stepLocal_credOK cfg e hwf.1 h
      simpa [runLocal] using runLocal_credOK cfg (stepLocal cfg st e) es hwf.2 h1

theorem initialLocalState_credOK (storedAccess storedRefresh : Option String) :
    localCredOK (initialLocalState storedAccess storedRefresh) := by
  unfold initialLocalState
  split
  · rename_i ht
    intro _
    refine ⟨_, rfl, ?_⟩
    cases storedAccess with
    | none => simp [truthy] at ht
    | some a =>
        simp only [truthy, Bool.not_eq_true'] at ht
        show a ≠ ""
        intro hcon
        rw [hcon] at ht
        exact absurd ht (by decide)
  · intro hauth; exact absurd hauth (by simp)

/-! ## Helper lemmas for repeated initialize calls -/

theorem runInitialize_waiting (cfg : LocalConfig) :
    ∀ (st : LocalState) (fs : List String), st.authState = .waitingForAuth →
      runInitialize cfg st fs = (st, fs.map (fun _ => InitResult.alreadyWaiting), 0)
  | st, [], _ => by simp [runInitialize]
  | st, f :: fs, hw => by
      have hstep : initializeTeamUp cfg st f = (st, .alreadyWaiting, 0) := by
        unfold initializeTeamUp
        rw [hw]
        simp
      have ih := runInitialize_waiting cfg st fs hw
      simp [runInitialize, hstep, ih]

theorem runInitialize_authenticated (cfg : LocalConfig) :
    ∀ (st : LocalState) (fs : List String), st.authState = .authenticated →
      runInitialize cfg st fs = (st, fs.map (fun _ => InitResult.alreadyConnected), 0)
  | st, [], _ => by simp [runInitialize]
  | st, f :: fs, ha => by
      have hstep : initializeTeamUp cfg st f = (st, .alreadyConnected, 0) := by
        unfold initializeTeamUp
        rw [ha]
        simp
      have ih := runInitialize_authenticated cfg st fs ha
      simp [runInitialize, hstep, ih]

/-! ## Claims -/

/-- C9: while the local session is `waiting_for_auth`, every further
`initialize_teamup` call returns the idempotent already-waiting message —
never a fresh authorization URL — and changes nothing; no sequence starts
a second callback listener (zero starts from the waiting state, and at
most one from any state). -/
theorem c9_initialize_idempotent :
    ∀ (cfg : LocalConfig) (st : LocalState) (fs : List String),
      (st.authState = .waitingForAuth →
        (runInitialize cfg st fs).1 = st
        ∧ (runInitialize cfg st fs).2.1 = fs.map (fun _ => InitResult.alreadyWaiting)
        ∧ (runInitialize cfg st fs).2.2 = 0)
      ∧ (runInitialize cfg st fs).2.2 ≤ 1 := by
  intro cfg st fs
  constructor
  · intro hw
    simp [runInitialize_waiting cfg st fs hw]
  · cases fs with
    | nil => simp [runInitialize]
    | cons f fs =>
        cases hst : st.authState with
        | waitingForAuth => simp [runInitialize_waiting cfg st (f :: fs) hst]
        | authenticated => simp [runInitialize_authenticated cfg st (f :: fs) hst]
        | uninitialized =>
            have hstep : initializeTeamUp cfg st f =
                ({ st with authState := .waitingForAuth, callbackServer := true },
                 .authUrl { client_id := cfg.clientId, redirect_uri := cfg.redirectUri,
                            response_type := "code", scope := cfg.scope, state := f },
                 if st.callbackServer then 0 else 1) := by
              unfold initializeTeamUp
              rw [hst]
              simp
            have hrest := runInitialize_waiting cfg
              { st with authState := .waitingForAuth, callbackServer := true } fs rfl
            simp [runInitialize, hstep, hrest]
            cases st.callbackServer <;> simp

/-- C9 witness: three initialize calls from a waiting state all answer
already-waiting, leave the state unchanged and start no listener. -/
theorem c9_witness :
    (runInitialize lcfgOauth stWaiting ["f1", "f2", "f3"]).1 = stWaiting
    ∧ (runInitialize lcfgOauth stWaiting ["f1", "f2", "f3"]).2.1
        = [InitResult.alreadyWaiting, InitResult.alreadyWaiting, InitResult.alreadyWaiting]
    ∧ (runInitialize lcfgOauth stWaiting ["f1", "f2", "f3"]).2.2 = 0 := by
  have h := (c9_initialize_idempotent lcfgOauth stWaiting ["f1", "f2", "f3"]).1 (by decide)
  exact ⟨h.1, h.2.1, h.2.2⟩

/-- C10: the `bulk_delete_customers` request is a constant POST to
`/customers/bulk_delete` with the constant one-field body: the
`customer_ids` argument has no influence, any two invocations build the
same upstream request, and no argument value reaches the body. -/
theorem c10_bulk_delete_constant :
    ∀ (cfg : LocalConfig) (st : LocalState) (args args2 : List (String × JVal)),
      localEntityRequest cfg st "bulk_delete_customers" args =
        localEntityRequest cfg st "bulk_delete_customers" args2
      ∧ bulkDeleteCustomers args =
          ("POST", "/customers/bulk_delete", JVal.obj [("customers", JVal.obj [])])
      ∧ localEntityRequest cfg st "bulk_delete_customers" args =
          some (mkLocalRequest cfg st "POST" "/customers/bulk_delete" []
            (JVal.obj [("customers", JVal.obj [])])) := by
  intro cfg st args args2
  exact ⟨rfl, rfl, rfl⟩

/-- C3: on the local transport a callback carrying `error=access_denied`
while the session is `waiting_for_auth` renders the failure page and makes
no token-endpoint call, but leaves `authState` at `waiting_for_auth` (the
claimed transition to `uninitialized` never happens and the session stays
waiting silently); the remote handler, by contrast, does demote the
session to `uninitialized`. -/
theorem c3_local_error_callback_keeps_waiting :
    (localCallback stWaiting
        { code := none, error := some "access_denied", state := some "xyz" } .fail)
      = (stWaiting, .errorPage "access_denied", 0)
    ∧ stWaiting.authState = .waitingForAuth
    ∧ AuthState.waitingForAuth ≠ AuthState.uninitialized
    ∧ (handleCallback
         [("xyz", { id := "xyz", tokens := none, userProvidedToken := none,
                    authState := .waitingForAuth })]
         { code := none, error := some "access_denied", state := some "xyz" } .fail)
        = ([("xyz", { id := "xyz", tokens := none, userProvidedToken := none,
                      authState := .uninitialized })],
           .errorPage "access_denied", 0) := by
  exact ⟨by decide, by decide, by decide, by decide⟩

/-- C1 (amended): a remote callback whose `state` is falsy or names no
live session is answered with the 400 response, leaves the session map —
hence every session's `authState` and credential — unchanged, and performs
no token-endpoint exchange. (The code checks only liveness of the session
id named by `state`: it does not track issuance or consumption of `state`
values, see the counterexample.) -/
theorem c1_unknown_state_rejected :
    ∀ (ss : Sessions) (q : CallbackQuery) (ex : ExchangeOutcome),
      truthy q.state = false ∨ findSession ss (q.state.getD "") = none →
      handleCallback ss q ex = (ss, .invalidSession400, 0) := by
  intro ss q ex h
  unfold handleCallback
  rcases h with h | h
  · simp [h]
  · by_cases ht : truthy q.state = true
    · simp [ht, h]
    · simp [ht]

/-- C1 witness: a callback presenting an unknown `state` against a map
with one live session is rejected with 400, mutating nothing. -/
theorem c1_witness :
    handleCallback
        [("live", { id := "live", tokens := none, userProvidedToken := none,
                    authState := .waitingForAuth })]
        { code := some "abc", error := none, state := some "ghost" }
        (.ok { access_token := "A", refresh_token := none, expires_in := none })
      = ([("live", { id := "live", tokens := none, userProvidedToken := none,
                     authState := .waitingForAuth })], .invalidSession400, 0) :=
  c1_unknown_state_rejected _ _ _ (Or.inr (by decide))

/-- C1 (counterexample): in `c1Trace` no `initialize_teamup` call ever
happens, so the `state` value "s1" was never issued by an initialize call;
the callback presenting it is nevertheless accepted: one token-endpoint
exchange runs and session "s1" is mutated to `authenticated` — not the
claimed 400-with-no-mutation-and-no-exchange. -/
theorem c1_counterexample :
    (c1Trace.all fun e =>
        match e with
        | .callTool _ _ name _ => name != "initialize_teamup"
        | _ => true) = true
    ∧ (runRemote cfgOauth [] c1Trace).2.1 = 1
    ∧ findSession (runRemote cfgOauth [] c1Trace).1 "s1"
        = some { id := "s1",
                 tokens := some { accessToken := "A", refreshToken := some "R",
                                  expiresAt := none },
                 userProvidedToken := none, authState := .authenticated } := by
  exact ⟨by decide, by decide, by decide⟩

/-- C2 (counterexample): from an authenticated session with a refresh
token, a 401, a successful refresh and a second 401 on the retry yield
exactly one refresh and one retry and a terminal 401 failure — but the
session's `authState` stays `authenticated`; it is not demoted to
`uninitialized` as the claim states. -/
theorem c2_counterexample :
    (requestWithRetry stRefresh envTwo401).2.2.1 = 1
    ∧ (requestWithRetry stRefresh envTwo401).2.2.2 = 2
    ∧ (requestWithRetry stRefresh envTwo401).2.1 = .failure 401
    ∧ (requestWithRetry stRefresh envTwo401).1.authState = .authenticated
    ∧ AuthState.authenticated ≠ AuthState.uninitialized := by
  exact ⟨by decide, by decide, by decide, by decide, by decide⟩

/-- C2 (amended): a 401 on a session holding a refresh token triggers
exactly one refresh and, on refresh success, exactly one re-issue with the
new credential; a second 401 is surfaced as the terminal failure with no
further refresh or retry, and the session's `authState` is left unchanged
(demotion to `uninitialized`, with the tokens cleared, happens only when
the refresh call itself fails, which also suppresses the retry). -/
theorem c2_single_refresh_single_retry :
    ∀ (st : LocalState) (env : UpstreamEnv) (d : TokenData),
      hasRefreshToken st = true → env.firstStatus = 401 →
      ((env.refresh = .ok d →
          (requestWithRetry st env).2.2.1 = 1
          ∧ (requestWithRetry st env).2.2.2 = 2
          ∧ (requestWithRetry st env).1.authState = st.authState
          ∧ (requestWithRetry st env).1.tokens
              = some { accessToken := d.access_token,
                       refreshToken := d.refresh_token, expiresAt := d.expires_in }
          ∧ (env.secondStatus = 401 →
              (requestWithRetry st env).2.1 = .failure 401))
       ∧ (env.refresh = .fail →
            (requestWithRetry st env).2.2.1 = 1
            ∧ (requestWithRetry st env).2.2.2 = 1
            ∧ (requestWithRetry st env).1.authState = .uninitialized
            ∧ (requestWithRetry st env).1.tokens = none
            ∧ (requestWithRetry st env).2.1 = .failure 401)) := by
  intro st env d hrt hfs
  have hok : isOk 401 = false := by decide
  constructor
  · intro hr
    refine ⟨?_, ?_, ?_, ?_, ?_⟩
    · by_cases hs : isOk env.secondStatus = true <;>
        simp [requestWithRetry, hok, hfs, hrt, hr, hs]
    · by_cases hs : isOk env.secondStatus = true <;>
        simp [requestWithRetry, hok, hfs, hrt, hr, hs]
    · by_cases hs : isOk env.secondStatus = true <;>
        simp [requestWithRetry, hok, hfs, hrt, hr, hs]
    · by_cases hs : isOk env.secondStatus = true <;>
        simp [requestWithRetry, hok, hfs, hrt, hr, hs]
    · intro h401
      have hs : isOk env.secondStatus = false := by rw [h401]; decide
      simp [requestWithRetry, hok, hfs, hrt, hr, hs, h401]
  · intro hr
    refine ⟨?_, ?_, ?_, ?_, ?_⟩ <;>
      simp [requestWithRetry, hok, hfs, hrt, hr]

/-- C2 witness: the single-refresh-single-retry behaviour evaluated on the
concrete two-401 environment. -/
theorem c2_witness :
    (requestWithRetry stRefresh envTwo401).2.2.1 = 1
    ∧ (requestWithRetry stRefresh envTwo401).2.2.2 = 2
    ∧ (requestWithRetry stRefresh envTwo401).1.authState = stRefresh.authState
    ∧ (requestWithRetry stRefresh envTwo401).2.1 = .failure 401 := by
  have h := (c2_single_refresh_single_retry stRefresh envTwo401
      { access_token := "A2", refresh_token := some "R2", expires_in := none }
      (by decide) (by decide)).1 rfl
  exact ⟨h.1, h.2.1, h.2.2.1, h.2.2.2.2 rfl⟩

/-- C5 (amended): on the remote transport in every mode, and on the local
transport in OAuth mode, invoking any tool other than the
`set_teamup_token` / `initialize_teamup` pseudo-tools while the session's
`authState` is not `authenticated` returns the authenticate-first
directive and issues zero upstream requests; in local static-token mode
the authentication check is skipped and the call is dispatched regardless
of `authState` (see the counterexample). -/
theorem c5_unauthenticated_directive :
    ∀ (cfg : RemoteConfig) (cfgL : LocalConfig) (s : UserSession)
      (st : LocalState) (name fresh : String) (args : List (String × JVal)),
      name ≠ "set_teamup_token" → name ≠ "initialize_teamup" →
      (s.authState ≠ .authenticated →
        remoteCallTool cfg s name args = (s, .directive, []))
      ∧ (cfgL.authMode = .oauth → st.authState ≠ .authenticated →
          localCallTool cfgL st name args fresh = (st, .directive, [])) := by
  intro cfg cfgL s st name fresh args h1 h2
  constructor
  · intro h3
    unfold remoteCallTool
    simp [h1, h2, h3]
  · intro hm h3
    unfold localCallTool
    simp [h2, h3, hm]

/-- C5 witness: an uninitialized session calling `list_events` gets the
directive and causes no upstream request, on both gated paths. -/
theorem c5_witness :
    remoteCallTool cfgOauth
        { id := "w", tokens := none, userProvidedToken := none,
          authState := .uninitialized } "list_events" []
      = ({ id := "w", tokens := none, userProvidedToken := none,
           authState := .uninitialized }, .directive, [])
    ∧ localCallTool lcfgOauth (initialLocalState none none) "list_events" [] "f"
        = (initialLocalState none none, .directive, []) := by
  have h := c5_unauthenticated_directive cfgOauth lcfgOauth
      { id := "w", tokens := none, userProvidedToken := none,
        authState := .uninitialized }
      (initialLocalState none none) "list_events" "f" [] (by decide) (by decide)
  exact ⟨h.1 (by decide), h.2 (by decide) (by decide)⟩

/-- C5 (counterexample): on the local static-token deployment the session
stays `uninitialized`, yet a `list_events` call is not answered with a
directive — it is dispatched upstream (one request issued). -/
theorem c5_counterexample :
    (initialLocalState none none).authState = .uninitialized
    ∧ (localCallTool lcfgTok (initialLocalState none none) "list_events" [] "f").2.1
        = .dispatched
    ∧ (localCallTool lcfgTok (initialLocalState none none) "list_events" [] "f").2.2.length
        = 1 := by
  refine ⟨by decide, by decide, rfl⟩

/-- C6 (amended): every dispatched call carries at most one credential
header, selected per mode: static-token mode sends the per-session
override token when truthy, else the server-wide token when truthy; OAuth
mode sends the session's OAuth access token only (overrides and the
server-wide token are ignored there). When the mode's sources are all
unavailable the dispatcher does not fail fast: the upstream request is
still issued, with no Authorization header at all. -/
theorem c6_header_selection :
    ∀ (cfg : RemoteConfig) (s : UserSession) (cfgL : LocalConfig) (st : LocalState),
      (cfg.authMode = .token → truthy s.userProvidedToken = true →
        remoteAuthHeader cfg s = some ("Bearer " ++ s.userProvidedToken.getD ""))
      ∧ (cfg.authMode = .token → truthy s.userProvidedToken = false →
          truthy cfg.accessToken = true →
          remoteAuthHeader cfg s = some ("Bearer " ++ cfg.accessToken.getD ""))
      ∧ (cfg.authMode = .token → truthy s.userProvidedToken = false →
          truthy cfg.accessToken = false → remoteAuthHeader cfg s = none)
      ∧ (cfg.authMode = .oauth → s.tokens = none → remoteAuthHeader cfg s = none)
      ∧ (cfg.authMode = .oauth → ∀ t, s.tokens = some t → t.accessToken ≠ "" →
          remoteAuthHeader cfg s = some ("Bearer " ++ t.accessToken))
      ∧ (s.authState = .authenticated →
          (remoteCallTool cfg s "list_events" []).2.2
            = [mkRemoteRequest cfg s "GET" "/events" [] .undefined])
      ∧ (cfgL.authMode = .token → truthy cfgL.accessToken = true →
          localAuthHeader cfgL st = some ("Token " ++ cfgL.accessToken.getD ""))
      ∧ (cfgL.authMode = .oauth → st.tokens = none → localAuthHeader cfgL st = none)
      ∧ (cfgL.authMode = .oauth → ∀ t, st.tokens = some t → t.accessToken ≠ "" →
          localAuthHeader cfgL st = some ("Token " ++ t.accessToken)) := by
  intro cfg s cfgL st
  refine ⟨?_, ?_, ?_, ?_, ?_, ?_, ?_, ?_, ?_⟩
  · intro hm ho
    unfold remoteAuthHeader tokenModeToken
    simp [hm, ho]
  · intro hm ho ha
    unfold remoteAuthHeader tokenModeToken
    simp [hm, ho, ha]
  · intro hm ho ha
    unfold remoteAuthHeader tokenModeToken
    simp [hm, ho, ha]
  · intro hm ht
    unfold remoteAuthHeader
    simp [hm, ht]
  · intro hm t ht hne
    unfold remoteAuthHeader
    simp [hm, ht, String.isEmpty_iff, hne]
  · intro hauth
    unfold remoteCallTool
    simp [hauth, remoteEntityRequest, buildQueryParams]
  · intro hm ha
    unfold localAuthHeader
    simp [hm, ha]
  · intro hm ht
    unfold localAuthHeader
    simp [hm, ht]
  · intro hm t ht hne
    unfold localAuthHeader
    simp [hm, ht, String.isEmpty_iff, hne]

/-- C6 witness: the header-selection theorem at concrete inputs — in
static-token mode a stored override is sent as its Bearer header, and the
local static scenario sends the server token. -/
theorem c6_witness :
    remoteAuthHeader cfgTok
        { id := "w", tokens := none, userProvidedToken := some "U",
          authState := .authenticated }
      = some "Bearer U"
    ∧ localAuthHeader lcfgTok (initialLocalState none none) = some "Token T" := by
  have h := c6_header_selection cfgTok
      { id := "w", tokens := none, userProvidedToken := some "U",
        authState := .authenticated }
      lcfgTok (initialLocalState none none)
  exact ⟨(h.1 rfl (by decide)).trans (by decide),
         ((h.2.2.2.2.2.2.1) rfl (by decide)).trans (by decide)⟩

/-- C6 (counterexample): on the OAuth deployment a session authenticated
through `set_teamup_token` holds an override token "U", and the server
also has a static token configured — yet the dispatched `list_events`
request is issued with no Authorization header at all: neither the
claimed precedence (override first) nor the claimed fail-fast happens. -/
theorem c6_counterexample :
    (runRemote cfgOauth [] c6Trace).2.2.map (fun r => r.authorization) = [none]
    ∧ ((findSession (runRemote cfgOauth [] c6Trace).1 "s1").map
        (fun s => s.userProvidedToken)) = some (some "U")
    ∧ cfgOauth.accessToken = some "S" := by
  refine ⟨rfl, by decide, by decide⟩

/-- C7 (amended): the Authorization scheme is fixed per transport, not per
authentication mode: every header the local stdio server attaches uses the
`Token` scheme (in OAuth mode too) and every header the remote server
attaches uses the `Bearer` scheme (in static-token mode too). The spec's
concrete static-token scenario does hold on the local transport: token
`T`, provider id 54664, provider mode, `list_events` with page 1 and
page_size 10 yields GET `/events` with both query params, `Authorization:
Token T`, `TeamUp-Provider-ID: 54664`, `TeamUp-Request-Mode: provider`. -/
theorem c7_scheme_by_transport :
    (∀ (cfgL : LocalConfig) (st : LocalState) (h : String),
        localAuthHeader cfgL st = some h → ∃ t, h = "Token " ++ t)
    ∧ (∀ (cfg : RemoteConfig) (s : UserSession) (h : String),
        remoteAuthHeader cfg s = some h → ∃ t, h = "Bearer " ++ t)
    ∧ localEntityRequest lcfgTok (initialLocalState none none) "list_events"
        [("page", .num 1), ("page_size", .num 10)]
        = some { method := "GET", path := "/events",
                 params := [("page", .num 1), ("page_size", .num 10)],
                 body := .undefined, authorization := some "Token T",
                 providerId := some "54664", requestMode := .provider } := by
  refine ⟨?_, ?_, ?_⟩
  · intro cfgL st h heq
    unfold localAuthHeader at heq
    split at heq
    · simp only [Option.some.injEq] at heq
      exact ⟨_, heq.symm⟩
    · split at heq
      · split at heq
        · simp only [Option.some.injEq] at heq
          exact ⟨_, heq.symm⟩
        · exact absurd heq (by simp)
      · exact absurd heq (by simp)
  · intro cfg s h heq
    unfold remoteAuthHeader at heq
    split at heq
    · split at heq
      · simp only [Option.some.injEq] at heq
        exact ⟨_, heq.symm⟩
      · exact absurd heq (by simp)
    · split at heq
      · rename_i t ht
        split at heq
        · simp only [Option.some.injEq] at heq
          exact ⟨_, heq.symm⟩
        · exact absurd heq (by simp)
      · exact absurd heq (by simp)
  · rfl

/-- C7 witness: the per-transport scheme shapes at concrete headers
produced by each interceptor. -/
theorem c7_witness :
    (∃ t, "Token T" = "Token " ++ t) ∧ (∃ t, "Bearer U" = "Bearer " ++ t) := by
  have h := c7_scheme_by_transport
  exact ⟨h.1 lcfgTok (initialLocalState none none) "Token T" (by decide),
         h.2.1 cfgTok
           { id := "w", tokens := none, userProvidedToken := some "U",
             authState := .authenticated } "Bearer U" (by decide)⟩

/-- C7 (counterexample): in static-token mode the remote server sends
`Bearer T`, not the claimed `Token T`; and in OAuth mode the local server
sends `Token A`, not the claimed `Bearer A`. -/
theorem c7_counterexample :
    remoteAuthHeader cfgTok
        { id := "w", tokens := none, userProvidedToken := none,
          authState := .authenticated }
      = some "Bearer T"
    ∧ some "Bearer T" ≠ some ("Token " ++ "T")
    ∧ localAuthHeader lcfgOauth
        { authState := .authenticated,
          tokens := some { accessToken := "A", refreshToken := none, expiresAt := none },
          callbackServer := false }
      = some "Token A"
    ∧ some "Token A" ≠ some ("Bearer " ++ "A") := by
  exact ⟨by decide, by decide, by decide, by decide⟩

/-- C8: a successful authorization-code exchange (the token endpoint
returns access token A with optional refresh token R) authenticates the
matched session and stores exactly A and R (and the raw expiry) in its
credential, on both transports, with exactly one token-endpoint POST; a
failure during the exchange instead leaves the session `uninitialized`. -/
theorem c8_successful_exchange :
    ∀ (ss : Sessions) (sid : String) (s : UserSession) (q : CallbackQuery)
      (d : TokenData) (st : LocalState),
      q.state = some sid → truthy q.state = true →
      findSession ss sid = some s →
      truthy q.error = false → truthy q.code = true →
      (handleCallback ss q (.ok d)
         = (setSession ss sid
              { s with tokens := some { accessToken := d.access_token,
                                        refreshToken := d.refresh_token,
                                        expiresAt := d.expires_in },
                       authState := .authenticated },
            .successPage, 1))
      ∧ (handleCallback ss q .fail
           = (setSession ss sid { s with authState := .uninitialized },
              .failurePage, 1))
      ∧ (st.callbackServer = true →
          (localCallback st q (.ok d)
             = ({ st with tokens := some { accessToken := d.access_token,
                                           refreshToken := d.refresh_token,
                                           expiresAt := d.expires_in },
                          authState := .authenticated, callbackServer := false },
                .successPage, 1))
          ∧ (localCallback st q .fail
               = ({ st with authState := .uninitialized }, .failurePage, 1))) := by
  intro ss sid s q d st hsid hts hfind herr hcode
  have hgetD : q.state.getD "" = sid := by rw [hsid]; rfl
  refine ⟨?_, ?_, ?_⟩
  · unfold handleCallback
    simp [hts, hgetD, hfind, herr, hcode]
  · unfold handleCallback
    simp [hts, hgetD, hfind, herr, hcode]
  · intro hcb
    constructor
    · unfold localCallback
      simp [hcb, herr, hcode]
    · unfold localCallback
      simp [hcb, herr, hcode]

/-- C8 witness: the callback `?code=abc123&state=xyz` with a mocked 200
response carrying access token A, refresh token R and expiry 3600
authenticates the matched waiting session with exactly that credential,
on both transports. -/
theorem c8_witness :
    handleCallback
        [("xyz", { id := "xyz", tokens := none, userProvidedToken := none,
                   authState := .waitingForAuth })]
        { code := some "abc123", error := none, state := some "xyz" }
        (.ok { access_token := "A", refresh_token := some "R", expires_in := some 3600 })
      = (setSession
           [("xyz", { id := "xyz", tokens := none, userProvidedToken := none,
                      authState := .waitingForAuth })]
           "xyz"
           { id := "xyz",
             tokens := some { accessToken := "A", refreshToken := some "R",
                              expiresAt := some 3600 },
             userProvidedToken := none, authState := .authenticated },
         .successPage, 1)
    ∧ localCallback stWaiting
        { code := some "abc123", error := none, state := some "xyz" }
        (.ok { access_token := "A", refresh_token := some "R", expires_in := some 3600 })
      = ({ authState := .authenticated,
           tokens := some { accessToken := "A", refreshToken := some "R",
                            expiresAt := some 3600 },
           callbackServer := false },
         .successPage, 1) := by
  have h := c8_successful_exchange
      [("xyz", { id := "xyz", tokens := none, userProvidedToken := none,
                 authState := .waitingForAuth })]
      "xyz"
      { id := "xyz", tokens := none, userProvidedToken := none,
        authState := .waitingForAuth }
      { code := some "abc123", error := none, state := some "xyz" }
      { access_token := "A", refresh_token := some "R", expires_in := some 3600 }
      stWaiting rfl (by decide) (by decide) (by decide) (by decide)
  exact ⟨h.1, (h.2.2 (by decide)).1⟩

/-- C4 (amended): for every event sequence whose environment inputs are
well-formed (token-endpoint successes carry a non-empty access token,
set-token arguments are strings), an `authenticated` remote session holds
a non-empty credential — an OAuth token pair or a per-session override —
or the server itself runs in static-token mode with a configured
server-wide token (the remote code then authenticates sessions without
storing any per-session credential, see the counterexample); on the local
transport `authenticated` implies a stored token pair with a non-empty
access token. -/
theorem c4_auth_invariant :
    (∀ (cfg : RemoteConfig) (events : List REvent),
        events.all wfREvent = true →
        ∀ (sid : String) (s : UserSession),
          findSession (runRemote cfg [] events).1 sid = some s →
          s.authState = .authenticated → sessionCredOK cfg s)
    ∧ (∀ (cfg : LocalConfig) (sa sr : Option String) (events : List LEvent),
        events.all wfLEvent = true →
        localCredOK (runLocal cfg (initialLocalState sa sr) events)) := by
  constructor
  · intro cfg events hwf sid s hfind hauth
    have hinv : remoteInv cfg (runRemote cfg [] events).1 :=
      runRemote_inv [] events hwf (by intro p hp; exact absurd hp (List.not_mem_nil p))
    exact findSession_inv hinv hfind hauth
  · intro cfg sa sr events hwf
    exact runLocal_credOK cfg _ events hwf (initialLocalState_credOK sa sr)

/-- C4 witness: the invariant applied to the static-token trace — the
authenticated session is covered by the server-wide-token disjunct. -/
theorem c4_witness :
    sessionCredOK cfgTok
      { id := "s1", tokens := none, userProvidedToken := none,
        authState := .authenticated } :=
  c4_auth_invariant.1 cfgTok c4Trace (by decide) "s1"
    { id := "s1", tokens := none, userProvidedToken := none,
      authState := .authenticated }
    (by decide) (by decide)

/-- C4 (counterexample): on the static-token remote deployment one
tools/list request makes the fresh session `authenticated` while it holds
neither an OAuth token pair nor a per-session override token — the
original claim's per-session credential does not exist. -/
theorem c4_counterexample :
    findSession (runRemote cfgTok [] c4Trace).1 "s1"
      = some { id := "s1", tokens := none, userProvidedToken := none,
               authState := .authenticated } := by decide

end TeamUp
